import Mathlib

/-!
Shallow embedding of the action-chain execution engine of the instagramMulti2
repository (src/instMulti).  Python strings are modelled as `List Char`,
Python dictionaries as structures, browser nondeterminism (what the page
queries return, which operations raise) as explicit environment values, and
the shared mutable `self.stats` dictionary as explicitly threaded state.
Exceptions in the Python source are modelled by environment constructors for
the operations that can raise, with each `except` handler's effect written
out; fallible page reads are `Except` values.
-/

namespace InstMulti

/-- Python `str`, modelled as a list of characters. -/
abbrev Str := List Char

/-- Python `s.lower()` (the source only lowercases ASCII phrases). -/
def lowerStr (s : Str) : Str := s.map Char.toLower

/-- Python substring test `needle in hay`. -/
def strContains (hay needle : Str) : Bool :=
  match hay with
  | [] => needle.isEmpty
  | c :: t => needle.isPrefixOf (c :: t) || strContains t needle

theorem strContains_of_isPrefixOf (hay needle : Str)
    (h : needle.isPrefixOf hay = true) : strContains hay needle = true := by
  cases hay with
  | nil =>
    cases needle with
    | nil => rfl
    | cons c t => simp [List.isPrefixOf] at h
  | cons c t => simp [strContains, h]

theorem strContains_cons (c : Char) (hay needle : Str)
    (h : strContains hay needle = true) : strContains (c :: hay) needle = true := by
  simp [strContains, h]

/-- Substring containment: any infix of the haystack is found by `strContains`. -/
theorem strContains_of_infix (hay needle : Str)
    (h : needle <:+: hay) : strContains hay needle = true := by
  obtain ⟨s, t, hst⟩ := h
  induction s generalizing hay with
  | nil =>
    subst hst
    apply strContains_of_isPrefixOf
    exact List.isPrefixOf_iff_prefix.mpr ⟨t, rfl⟩
  | cons c s ih =>
    subst hst
    exact strContains_cons c _ _ (ih _ rfl)

/-- Infix version of `lowerStr` distributing over append. -/
theorem lowerStr_append (a b : Str) : lowerStr (a ++ b) = lowerStr a ++ lowerStr b := by
  simp [lowerStr]

/-- Shared run-statistics counters touched by the chain runner and the
executors (`self.stats`); the remaining keys of the source dictionary
(`accounts_processed`, `current_account`, `current_target`, `start_time`,
`errors`) are never written by the code under scrutiny here. -/
structure Stats where
  total_actions : Nat
  successful_actions : Nat
  failed_actions : Nat
  deriving Repr, DecidableEq

/-- All-zero counters, the initial value of `self.stats`. -/
def stats0 : Stats := ⟨0, 0, 0⟩

/-- Marker for a raised exception carrying its message. -/
structure PageErr where
  msg : Str
  deriving Repr, DecidableEq

/-- The fixed phrase list of `check_for_blocks`. -/
def block_indicators : List Str :=
  [ "Try Again Later".data,
    "Please wait a few minutes".data,
    "temporarily blocked".data,
    "unusual activity".data,
    "We restrict certain activity".data,
    "Action Blocked".data,
    "temporary ban".data ]

/-- Embedding of `InstagramAutomation.check_for_blocks`.  The first argument
is the result of `page.content()`, the second the result of querying the
`[role="dialog"]` element and reading its text (`none` when no dialog is
open); a raised exception in either read lands in the handler that returns
`False`. -/
def check_for_blocks (pageContent : Except PageErr Str)
    (dialog : Except PageErr (Option Str)) : Bool :=
  match pageContent with
  | .error _ => false
  | .ok content =>
    if block_indicators.any (fun ind => strContains (lowerStr content) (lowerStr ind)) then
      true
    else
      match dialog with
      | .error _ => false
      | .ok none => false
      | .ok (some dtext) =>
        block_indicators.any (fun ind => strContains (lowerStr dtext) (lowerStr ind))

/-- Result dictionary of `check_profile_status`.  The Python key `private`
is a Lean keyword and is rendered `privateProfile`. -/
structure ProfileStatus where
  blocked : Bool
  privateProfile : Bool
  not_found : Bool
  suspended : Bool
  reason : Option Str
  deriving Repr, DecidableEq

/-- Embedding of `InstagramAutomation.check_profile_status`: pattern-match the
rendered page content against the known phrases, in source order; a raised
exception while reading the content yields the synthetic blocked status of the
handler. -/
def check_profile_status (pageContent : Except PageErr Str) : ProfileStatus :=
  match pageContent with
  | .error e =>
    { blocked := true, privateProfile := false, not_found := false,
      suspended := false,
      reason := some ("Помилка перевірки: ".data ++ e.msg) }
  | .ok content =>
    if strContains content "Sorry, this page isn\x27t available".data then
      { blocked := true, privateProfile := false, not_found := true,
        suspended := false, reason := some "Сторінка не знайдена".data }
    else if strContains content "This Account is Private".data
        || strContains content "This account is private".data then
      { blocked := true, privateProfile := true, not_found := false,
        suspended := false, reason := some "Приватний акаунт".data }
    else if strContains content "User not found".data then
      { blocked := true, privateProfile := false, not_found := true,
        suspended := false, reason := some "Користувач не знайдений".data }
    else if strContains (lowerStr content) "temporarily unavailable".data then
      { blocked := true, privateProfile := false, not_found := false,
        suspended := true, reason := some "Акаунт тимчасово недоступний".data }
    else
      { blocked := false, privateProfile := false, not_found := false,
        suspended := false, reason := none }

/-- Observable outcome of one navigation attempt in `navigate_to_profile`:
whether `page.goto`/`wait_for_load_state` raised, and the page title read
afterwards. -/
structure NavAttempt where
  fault : Bool
  title : Str
  deriving Repr, DecidableEq

/-- Attempt loop of `navigate_to_profile`: try attempts `i, i+1, ...` while
the retry budget lasts; an attempt succeeds when nothing raised and the title
contains the platform name or the target handle. -/
def navLoop (target : Str) (attempts : Nat → NavAttempt) (i : Nat) : Nat → Bool
  | 0 => false
  | budget + 1 =>
    let a := attempts i
    if !a.fault && (strContains a.title "Instagram".data || strContains a.title target) then
      true
    else
      navLoop target attempts (i + 1) budget

/-- Embedding of `InstagramAutomation.navigate_to_profile` (default
`max_retries = 3`). -/
def navigate_to_profile (target : Str) (attempts : Nat → NavAttempt)
    (max_retries : Nat := 3) : Bool :=
  navLoop target attempts 0 max_retries

/-- Transient profile snapshot built by `gather_profile_info`; every field is
best-effort with the defaults of the source dictionary. -/
structure ProfileInfo where
  username : Str
  posts_count : Nat
  followers_count : Nat
  following_count : Nat
  has_stories : Bool
  is_verified : Bool
  deriving Repr, DecidableEq

/-- Environment for one `follow_user` call.  Each constructor is one of the
disjoint control-flow outcomes of the body: some page operation raised (all
raise sites share the one handler), the follow control was found and clicked,
only the already-following control was found, or neither was found. -/
inductive FollowEnv
  | fault
  | followButton
  | followingButton
  | noButton
  deriving Repr, DecidableEq

/-- Embedding of `InstagramAutomation.follow_user`.  Note the internal
increments of the shared counters on the click path and in the exception
handler. -/
def follow_user (env : FollowEnv) (s : Stats) : Bool × Stats :=
  match env with
  | .followButton =>
    (true, { s with successful_actions := s.successful_actions + 1,
                    total_actions := s.total_actions + 1 })
  | .followingButton => (true, s)
  | .noButton => (false, s)
  | .fault =>
    (false, { s with failed_actions := s.failed_actions + 1,
                     total_actions := s.total_actions + 1 })

/-- Outcome of handling one post link inside `like_recent_posts`: the post was
already liked (skip), the like control was found and clicked, the like control
was absent, or the per-post body raised (absorbed by the per-post handler). -/
inductive PostEvent
  | alreadyLiked
  | liked
  | noLikeButton
  | postFault
  deriving Repr, DecidableEq

/-- Environment for `like_recent_posts`: either the initial post-link query
raised, or it returned one link per entry of `events`, each entry describing
what happened inside the loop for that link. -/
inductive LikePostsEnv
  | fault
  | posts (events : List PostEvent)
  deriving Repr, DecidableEq

/-- Loop state transformer of `like_recent_posts`: accumulates the liked
count and the shared-counter increments of one post event. -/
def likePostStep (acc : Nat × Stats) (e : PostEvent) : Nat × Stats :=
  match e with
  | .alreadyLiked => acc
  | .noLikeButton => acc
  | .liked =>
    (acc.1 + 1,
     { acc.2 with successful_actions := acc.2.successful_actions + 1,
                  total_actions := acc.2.total_actions + 1 })
  | .postFault =>
    (acc.1,
     { acc.2 with failed_actions := acc.2.failed_actions + 1,
                  total_actions := acc.2.total_actions + 1 })

/-- Embedding of `InstagramAutomation.like_recent_posts`: `posts_to_like =
min(count, len(post_links))` posts are processed (a negative `count` gives an
empty range) and the call succeeds iff at least one like was performed. -/
def like_recent_posts (count : Int) (env : LikePostsEnv) (s : Stats) : Bool × Stats :=
  match env with
  | .fault => (false, s)
  | .posts events =>
    if events.isEmpty then (false, s)
    else
      let posts_to_like := (min count (events.length : Int)).toNat
      let r := (events.take posts_to_like).foldl likePostStep (0, s)
      (decide (0 < r.1), r.2)

/-- Post-view navigation outcome for one story frame in `view_stories`
(consulted only when more frames are requested): the next-frame control was
found and clicked, it was absent (no further frames), or the frame body
raised after the view was counted. -/
inductive FrameEvent
  | next
  | noNext
  | navFault
  deriving Repr, DecidableEq

/-- Environment for `view_stories`: the story-ring query raised (before the
viewer opened), no story ring exists, the story-container wait raised (after
the click opened the viewer), or the viewer opened and `events` gives the
per-frame navigation outcomes. -/
inductive ViewStoriesEnv
  | ringFault
  | noRing
  | containerFault
  | frames (events : Nat → FrameEvent)

/-- Frame loop of `view_stories`: `budget` frames remain, `i` is the current
frame index, `viewed` the running count.  Every entered iteration counts the
view and increments the shared counters before deciding whether a next frame
can be reached. -/
def viewLoop (events : Nat → FrameEvent) : Nat → Nat → Nat → Stats → Nat × Stats
  | 0, _, viewed, s => (viewed, s)
  | budget + 1, i, viewed, s =>
    let viewed := viewed + 1
    let s := { s with successful_actions := s.successful_actions + 1,
                      total_actions := s.total_actions + 1 }
    if budget = 0 then (viewed, s)
    else
      match events i with
      | .next => viewLoop events budget (i + 1) viewed s
      | .noNext => (viewed, s)
      | .navFault => (viewed, s)

/-- Instrumented result of `view_stories`: the returned boolean, the number of
frames viewed, whether the viewer was opened, whether `close_stories` ran
before returning, and the updated shared counters. -/
structure ViewStoriesOut where
  success : Bool
  viewed : Nat
  opened : Bool
  closed : Bool
  stats : Stats
  deriving Repr, DecidableEq

/-- Embedding of `InstagramAutomation.view_stories`.  The `opened`/`closed`
fields record the story-viewer state transitions performed on each path; the
exception handler at the end of the source closes nothing. -/
def view_stories (count : Int) (env : ViewStoriesEnv) (s : Stats) : ViewStoriesOut :=
  match env with
  | .ringFault => ⟨false, 0, false, false, s⟩
  | .noRing => ⟨false, 0, false, false, s⟩
  | .containerFault => ⟨false, 0, true, false, s⟩
  | .frames events =>
    let r := viewLoop events count.toNat 0 0 s
    ⟨decide (0 < r.1), r.1, true, true, r.2⟩

/-- Environment for `like_stories`: a raise anywhere in the body (one shared
handler), no story ring, the like control found and clicked, or the like
control absent. -/
inductive LikeStoriesEnv
  | fault
  | noRing
  | liked
  | noLikeButton
  deriving Repr, DecidableEq

/-- Embedding of `InstagramAutomation.like_stories`. -/
def like_stories (env : LikeStoriesEnv) (s : Stats) : Bool × Stats :=
  match env with
  | .fault => (false, s)
  | .noRing => (false, s)
  | .noLikeButton => (false, s)
  | .liked =>
    (true, { s with successful_actions := s.successful_actions + 1,
                    total_actions := s.total_actions + 1 })

/-- Environment for `reply_to_stories` after the non-empty-texts guard. -/
inductive ReplyEnv
  | fault
  | noRing
  | noReplyField
  | sent
  | noSendButton
  deriving Repr, DecidableEq

/-- Embedding of `InstagramAutomation.reply_to_stories` (the chosen template
text does not influence control flow and is not tracked). -/
def reply_to_stories (texts : List Str) (env : ReplyEnv) (s : Stats) : Bool × Stats :=
  if texts.isEmpty then (false, s)
  else
    match env with
    | .fault => (false, s)
    | .noRing => (false, s)
    | .noReplyField => (false, s)
    | .noSendButton => (false, s)
    | .sent =>
      (true, { s with successful_actions := s.successful_actions + 1,
                      total_actions := s.total_actions + 1 })

/-- Environment for `send_direct_message` after the non-empty-texts guard:
each constructor is the first missing element of the nested lookups, a raise
(all raise sites share the one handler), or full success. -/
inductive DmEnv
  | fault
  | noSearchField
  | noUserResult
  | noNextButton
  | noMessageField
  | noSendButton
  | sent
  deriving Repr, DecidableEq

/-- Embedding of `InstagramAutomation.send_direct_message`.  Its exception
handler, unlike the other story/post executors, increments the shared failed
and total counters. -/
def send_direct_message (texts : List Str) (env : DmEnv) (s : Stats) : Bool × Stats :=
  if texts.isEmpty then (false, s)
  else
    match env with
    | .sent =>
      (true, { s with successful_actions := s.successful_actions + 1,
                      total_actions := s.total_actions + 1 })
    | .fault =>
      (false, { s with failed_actions := s.failed_actions + 1,
                       total_actions := s.total_actions + 1 })
    | _ => (false, s)

/-- The `settings` sub-dictionary of one chain step; a value of `none` for a
field models an absent key. -/
structure ActionSettings where
  count : Option Int
  delay : Option Int
  deriving Repr, DecidableEq

/-- One action-chain step dictionary.  `enabled` models
`action.get('enabled', True)`; `settings = none` models a missing or empty
(falsy) settings dictionary. -/
structure ActionStep where
  type : Str
  name : Option Str
  enabled : Bool
  settings : Option ActionSettings
  deriving Repr, DecidableEq

/-- Python `action.get('settings', \x7b\x7d).get('count', d)`. -/
def settingsCount (a : ActionStep) (d : Int) : Int :=
  match a.settings with
  | none => d
  | some st => st.count.getD d

/-- Python `action.get('name', action.get('type'))`. -/
def stepName (a : ActionStep) : Str := a.name.getD a.type

/-- The two template-text pools handed to the chain runner. -/
structure Texts where
  story_replies : List Str
  direct_messages : List Str
  deriving Repr, DecidableEq

/-- Result dictionary of `execute_single_action` (the auxiliary `details`
map never influences control flow or counters and is not tracked). -/
structure ActionResult where
  success : Bool
  error : Option Str
  deriving Repr, DecidableEq

/-- Per-step slice of the browser environment consulted by the runner:
the `self.running` flag as read before the step, the environment of every
executor the dispatch could select, the canvas re-query outcome used by
`update_profile_info` (`none` models a raised query), and the page reads of
the post-step `check_for_blocks` call. -/
structure StepEnv where
  running : Bool
  followEnv : FollowEnv
  likePostsEnv : LikePostsEnv
  viewStoriesEnv : ViewStoriesEnv
  likeStoriesEnv : LikeStoriesEnv
  replyEnv : ReplyEnv
  dmEnv : DmEnv
  canvasAfter : Option Bool
  blockContent : Except PageErr Str
  blockDialog : Except PageErr (Option Str)

/-- Embedding of `InstagramAutomation.update_profile_info`: after `follow` or
`like_posts`, re-query the story ring and record its presence; a raised query
leaves the snapshot unchanged. -/
def update_profile_info (pinfo : ProfileInfo) (action_type : Str)
    (canvas : Option Bool) : ProfileInfo :=
  if action_type = "like_posts".data || action_type = "follow".data then
    match canvas with
    | none => pinfo
    | some b => { pinfo with has_stories := b }
  else pinfo

/-- Embedding of `InstagramAutomation.execute_single_action`: dispatch on the
action type string, applying the has-stories and non-empty-text-pool guards of
the source before invoking an executor.  The third component lists the
executor operations actually invoked (empty on a guard short-circuit or an
unknown type). -/
def execute_single_action (a : ActionStep) (texts : Texts) (pinfo : ProfileInfo)
    (se : StepEnv) (s : Stats) : ActionResult × Stats × List Str :=
  if a.type = "follow".data then
    let r := follow_user se.followEnv s
    (⟨r.1, none⟩, r.2, ["follow".data])
  else if a.type = "like_posts".data then
    let r := like_recent_posts (settingsCount a 2) se.likePostsEnv s
    (⟨r.1, none⟩, r.2, ["like_posts".data])
  else if a.type = "view_stories".data then
    if !pinfo.has_stories then (⟨false, some "Немає активних сторіс".data⟩, s, [])
    else
      let o := view_stories (settingsCount a 3) se.viewStoriesEnv s
      (⟨o.success, none⟩, o.stats, ["view_stories".data])
  else if a.type = "like_stories".data then
    if !pinfo.has_stories then (⟨false, some "Немає активних сторіс".data⟩, s, [])
    else
      let r := like_stories se.likeStoriesEnv s
      (⟨r.1, none⟩, r.2, ["like_stories".data])
  else if a.type = "reply_stories".data then
    if !pinfo.has_stories then (⟨false, some "Немає активних сторіс".data⟩, s, [])
    else if texts.story_replies.isEmpty then
      (⟨false, some "Немає текстів для відповідей".data⟩, s, [])
    else
      let r := reply_to_stories texts.story_replies se.replyEnv s
      (⟨r.1, none⟩, r.2, ["reply_stories".data])
  else if a.type = "send_dm".data then
    if texts.direct_messages.isEmpty then
      (⟨false, some "Немає текстів для DM".data⟩, s, [])
    else
      let r := send_direct_message texts.direct_messages se.dmEnv s
      (⟨r.1, none⟩, r.2, ["send_dm".data])
  else if a.type = "delay".data then
    (⟨true, none⟩, s, ["delay".data])
  else
    (⟨false, some ("Невідомий тип дії: ".data ++ a.type)⟩, s, [])

/-- Accumulated outcome of the per-step loop of `execute_action_chain`:
chain-local success/failure counters, the number of steps that entered the
loop body, the trace of invoked executor operations, and the shared counters.
-/
structure LoopOut where
  successful : Nat
  failed : Nat
  processed : Nat
  invoked : List Str
  stats : Stats

/-- Per-step loop of `execute_action_chain` over the enabled steps, with `i`
the loop index into the per-step environments.  Each entered iteration
dispatches the step, updates the chain-local and shared counters (one shared
total increment per step), refreshes the story flag after a successful follow
or post like, and breaks when the stop flag was cleared or the post-step block
scan matches.  The surrounding exception handlers of the source are
unreachable because every callee absorbs its own exceptions, and the
inter-step sleep has no observable state. -/
def stepLoop (texts : Texts) (envs : Nat → StepEnv) :
    List ActionStep → Nat → ProfileInfo → Nat → Nat → Nat → List Str → Stats → LoopOut
  | [], _, _, succ, fail, proc, tr, s => ⟨succ, fail, proc, tr, s⟩
  | a :: rest, i, pinfo, succ, fail, proc, tr, s =>
    let se := envs i
    if !se.running then ⟨succ, fail, proc, tr, s⟩
    else
      let r := execute_single_action a texts pinfo se s
      let succ1 := if r.1.success then succ + 1 else succ
      let fail1 := if r.1.success then fail else fail + 1
      let s2 :=
        if r.1.success then
          { r.2.1 with successful_actions := r.2.1.successful_actions + 1 }
        else
          { r.2.1 with failed_actions := r.2.1.failed_actions + 1 }
      let pinfo1 :=
        if r.1.success then update_profile_info pinfo a.type se.canvasAfter
        else pinfo
      let s3 := { s2 with total_actions := s2.total_actions + 1 }
      let tr1 := tr ++ r.2.2
      if check_for_blocks se.blockContent se.blockDialog then
        ⟨succ1, fail1, proc + 1, tr1, s3⟩
      else
        stepLoop texts envs rest (i + 1) pinfo1 succ1 fail1 (proc + 1) tr1 s3

/-- Per-target statistics entry passed to `save_target_statistics`. -/
structure TargetStats where
  successful_actions : Nat
  failed_actions : Nat
  success_rate : ℚ
  actions_performed : List Str
  deriving DecidableEq

/-- Environment of one whole chain run: navigation attempt outcomes, the page
content read by the status check, the profile snapshot produced by the
best-effort `gather_profile_info`, and the per-step environments. -/
structure ChainEnv where
  nav : Nat → NavAttempt
  statusContent : Except PageErr Str
  profileInfo : ProfileInfo
  stepEnvs : Nat → StepEnv

/-- Result of one `execute_action_chain` run: final shared counters, the
chain-local counters, how many enabled steps entered the loop, the executor
trace, whether navigation was attempted, and the per-target statistics entry
(`none` when `save_target_statistics` was never reached). -/
structure ChainResult where
  stats : Stats
  successful : Nat
  failed : Nat
  processedSteps : Nat
  invoked : List Str
  navAttempted : Bool
  recorded : Option TargetStats

/-- Embedding of `InstagramAutomation.execute_action_chain`: entry validation,
navigation with a 3-attempt budget, the status check, the per-step loop and
the final per-target statistics record, with every early `return` of the
source producing `recorded = none`. -/
def execute_action_chain (target : Str) (chain : List ActionStep) (texts : Texts)
    (env : ChainEnv) (s0 : Stats) : ChainResult :=
  if chain.isEmpty then ⟨s0, 0, 0, 0, [], false, none⟩
  else
    let enabled := chain.filter (·.enabled)
    if enabled.isEmpty then ⟨s0, 0, 0, 0, [], false, none⟩
    else if !navigate_to_profile target env.nav then ⟨s0, 0, 0, 0, [], true, none⟩
    else if (check_profile_status env.statusContent).blocked then
      ⟨s0, 0, 0, 0, [], true, none⟩
    else
      let r := stepLoop texts env.stepEnvs enabled 0 env.profileInfo 0 0 0 [] s0
      let success_rate : ℚ :=
        if 0 < r.successful + r.failed then
          (r.successful : ℚ) / ((r.successful : ℚ) + (r.failed : ℚ)) * 100
        else 0
      ⟨r.stats, r.successful, r.failed, r.processed, r.invoked, true,
       some ⟨r.successful, r.failed, success_rate, enabled.map stepName⟩⟩

/-- Lease record stored by the Session Gate (`start_time` and the generated
`session_id` are opaque payloads supplied by the caller's environment). -/
structure SessionInfo where
  start_time : Nat
  session_id : Nat
  deriving Repr, DecidableEq

/-- The `active_sessions` dictionary of `SessionManager`, as an association
list whose keys are unique by construction of the operations. -/
abbrev SessionMap := List (Str × SessionInfo)

/-- Python `account_username in self.active_sessions`. -/
def has_lease (m : SessionMap) (acct : Str) : Bool :=
  m.any (fun p => decide (p.1 = acct))

/-- Embedding of `SessionManager.acquire_session` (the body under the lock):
refuse when a lease exists, otherwise record a fresh lease. -/
def acquire_session (m : SessionMap) (acct : Str) (info : SessionInfo) :
    Bool × SessionMap :=
  if has_lease m acct then (false, m) else (true, (acct, info) :: m)

/-- Embedding of `SessionManager.release_session`: delete the key when
present (deleting from a unique-key dictionary removes every entry with that
key). -/
def release_session (m : SessionMap) (acct : Str) : SessionMap :=
  m.filter (fun p => !decide (p.1 = acct))

/-- Embedding of `SessionManager.is_session_active`. -/
def is_session_active (m : SessionMap) (acct : Str) : Bool := has_lease m acct

/-- One serialized Session Gate operation. -/
inductive SessionOp
  | acquire (acct : Str) (info : SessionInfo)
  | release (acct : Str)

/-- State after running a sequence of gate operations (the lock serializes
them) from a given lease map. -/
def applySessionOps (ops : List SessionOp) (m : SessionMap) : SessionMap :=
  match ops with
  | [] => m
  | .acquire acct info :: rest => applySessionOps rest (acquire_session m acct info).2
  | .release acct :: rest => applySessionOps rest (release_session m acct)

/-- Number of leases a given account holds. -/
def lease_count (m : SessionMap) (acct : Str) : Nat :=
  m.countP (fun p => decide (p.1 = acct))

/-- Validation message emitted by `SettingsValidator.validate_action_chain`;
each constructor corresponds to one `append` site of the source, carrying the
data interpolated into the message. -/
inductive ValMsg
  | emptyChain
  | noEnabled
  | unknownType (step : Nat) (t : Str)
  | badCount (step : Nat) (c : Int)
  | badDelay (step : Nat) (d : Int)
  deriving Repr, DecidableEq

/-- Result dictionary of the chain validator. -/
structure ValidationResult where
  valid : Bool
  errors : List ValMsg
  warnings : List ValMsg
  deriving Repr, DecidableEq

/-- The `valid_action_types` list of `SettingsValidator.validate_action_chain`. -/
def valid_action_types : List Str :=
  [ "follow".data, "like_posts".data, "view_stories".data, "like_stories".data,
    "reply_stories".data, "send_dm".data, "delay".data ]

/-- Embedding of `SettingsValidator.validate_action_chain`.  Errors are the
empty-chain early return, the no-enabled-actions check and one unknown-type
message per offending step; the count/delay range checks only produce
warnings (a non-integer settings value, which the source also only warns
about, is not modelled).  `valid` is `len(errors) == 0`. -/
def validate_action_chain (chain : List ActionStep) : ValidationResult :=
  if chain.isEmpty then ⟨false, [.emptyChain], []⟩
  else
    let enabled := chain.filter (·.enabled)
    let errs : List ValMsg :=
      (if enabled.isEmpty then [.noEnabled] else []) ++
        chain.enum.filterMap (fun p =>
          if p.2.type ∈ valid_action_types then none
          else some (.unknownType (p.1 + 1) p.2.type))
    let warns : List ValMsg :=
      chain.enum.flatMap (fun p =>
        (if (p.2.type = "like_posts".data || p.2.type = "view_stories".data)
            && p.2.settings.isSome then
          let c := settingsCount p.2 1
          if c < 1 || 10 < c then [ValMsg.badCount (p.1 + 1) c] else []
        else []) ++
        (if p.2.type = "delay".data && p.2.settings.isSome then
          let d := (p.2.settings.map (fun st => st.delay.getD 30)).getD 30
          if d < 1 then [ValMsg.badDelay (p.1 + 1) d] else []
        else []))
    ⟨errs.isEmpty, errs, warns⟩

/-- The `important_actions` list of `calculate_action_delay`. -/
def important_actions : List Str :=
  ["follow".data, "send_dm".data, "reply_stories".data]

/-- Embedding of `InstagramAutomation.calculate_action_delay`.  The two
`random.uniform` draws are the parameters `baseDraw` (from the configured
between-actions range) and `jitter` (from [-2, 3]); the result is the base
draw scaled by 1.5 for the sensitive types and by 2 on failure, plus the
jitter, floored at 1 second. -/
def calculate_action_delay (action_type : Str) (was_successful : Bool)
    (baseDraw jitter : ℚ) : ℚ :=
  let delay := baseDraw
  let delay := if action_type ∈ important_actions then delay * (3 / 2) else delay
  let delay := if !was_successful then delay * 2 else delay
  let delay := delay + jitter
  max delay 1

/-- Python slice `l[s:e]` for `0 ≤ s ≤ e`. -/
def listSlice (l : List α) (s e : Nat) : List α := (l.take e).drop s

/-- Worker loop of `_distribute_accounts`: emit one chunk per remaining
worker `budget`, where `i` is the worker index and `start` the running slice
start. -/
def distributeGo (accounts : List α) (chunkSize remainder : Nat) :
    Nat → Nat → Nat → List (List α)
  | 0, _, _ => []
  | budget + 1, i, start =>
    let stop := start + chunkSize + (if i < remainder then 1 else 0)
    (if start < accounts.length then listSlice accounts start stop else []) ::
      distributeGo accounts chunkSize remainder budget (i + 1) stop

/-- Embedding of `MultiWorkerManager._distribute_accounts`. -/
def distribute_accounts (accounts : List α) (num_workers : Nat) : List (List α) :=
  if accounts.isEmpty then List.replicate num_workers []
  else
    distributeGo accounts (accounts.length / num_workers)
      (accounts.length % num_workers) num_workers 0 0

/-! Shared concrete inputs used to instantiate the theorems. -/

/-- A benign per-step environment: the stop flag is set, every executor
succeeds, and the post-step block scan reads unremarkable page text. -/
def exampleStepEnvBenign : StepEnv where
  running := true
  followEnv := .followButton
  likePostsEnv := .posts [.liked]
  viewStoriesEnv := .frames (fun _ => .next)
  likeStoriesEnv := .liked
  replyEnv := .sent
  dmEnv := .sent
  canvasAfter := some true
  blockContent := .ok "plain profile page".data
  blockDialog := .ok none

/-- A profile snapshot with active stories. -/
def examplePinfo : ProfileInfo :=
  ⟨"user".data, 10, 100, 50, true, false⟩

/-- Navigation succeeding at once: the platform name is in the title. -/
def exampleNavOk : Nat → NavAttempt := fun _ => ⟨false, "Instagram".data⟩

/-- A benign whole-chain environment built from the pieces above. -/
def exampleEnvBenign : ChainEnv :=
  ⟨exampleNavOk, .ok "plain profile page".data, examplePinfo,
   fun _ => exampleStepEnvBenign⟩

/-- A chain environment whose navigation attempts all raise. -/
def exampleEnvNavFail : ChainEnv :=
  ⟨fun _ => ⟨true, []⟩, .ok "plain profile page".data, examplePinfo,
   fun _ => exampleStepEnvBenign⟩

/-- Non-empty template-text pools. -/
def exampleTexts : Texts := ⟨["nice".data], ["hello".data]⟩

/-- A single enabled follow step. -/
def followStep : ActionStep := ⟨"follow".data, some "Підписка".data, true, none⟩

/-- A chain holding only the follow step. -/
def followOnlyChain : List ActionStep := [followStep]

/-- A single enabled like-stories step (count 2). -/
def likeStoriesStep : ActionStep :=
  ⟨"like_stories".data, none, true, some ⟨some 2, none⟩⟩

/-- A chain holding only the like-stories step, with no view-stories step. -/
def likeStoriesOnlyChain : List ActionStep := [likeStoriesStep]

/-! Claim C7. -/

/-- C7: for every action type, success flag and values of the two random
draws, the adaptive inter-action delay computed by `calculate_action_delay`
is at least 1 second. -/
theorem calculate_action_delay_floor (action_type : Str) (was_successful : Bool)
    (baseDraw jitter : ℚ) :
    1 ≤ calculate_action_delay action_type was_successful baseDraw jitter := by
  unfold calculate_action_delay
  exact le_max_right _ _

/-! Claim C8. -/

/-- C8: whenever some phrase of the fixed block-indicator list occurs
(case-insensitively, at any position) in the page text, `check_for_blocks`
reports a block, and likewise when the phrase occurs only in the text of an
open dialog element. -/
theorem check_for_blocks_detects_indicator (ind content dtext : Str)
    (dialog : Except PageErr (Option Str)) (hmem : ind ∈ block_indicators) :
    (lowerStr ind <:+: lowerStr content →
        check_for_blocks (.ok content) dialog = true)
    ∧ (lowerStr ind <:+: lowerStr dtext →
        check_for_blocks (.ok content) (.ok (some dtext)) = true) := by
  constructor
  · intro h
    have hany : block_indicators.any
        (fun i => strContains (lowerStr content) (lowerStr i)) = true :=
      List.any_eq_true.mpr ⟨ind, hmem, strContains_of_infix _ _ h⟩
    simp [check_for_blocks, hany]
  · intro h
    have hd : block_indicators.any
        (fun i => strContains (lowerStr dtext) (lowerStr i)) = true :=
      List.any_eq_true.mpr ⟨ind, hmem, strContains_of_infix _ _ h⟩
    by_cases hc : block_indicators.any
        (fun i => strContains (lowerStr content) (lowerStr i)) = true
    · simp [check_for_blocks, hc]
    · simp only [Bool.not_eq_true] at hc
      simp [check_for_blocks, hc, hd]

/-- Witness for C8 at the phrase "Action Blocked", once mixed-case in the
middle of the page text and once only inside a dialog. -/
theorem check_for_blocks_detects_indicator_witness :
    check_for_blocks (.ok "oops aCtIoN bLoCkEd today".data) (.ok none) = true
    ∧ check_for_blocks (.ok "plain page".data)
        (.ok (some "Sorry. Action Blocked!".data)) = true := by
  constructor
  · exact (check_for_blocks_detects_indicator "Action Blocked".data
        "oops aCtIoN bLoCkEd today".data [] (.ok none) (by decide)).1
      ⟨"oops ".data, " today".data, by decide⟩
  · exact (check_for_blocks_detects_indicator "Action Blocked".data
        "plain page".data "Sorry. Action Blocked!".data (.ok none) (by decide)).2
      ⟨"sorry. ".data, "!".data, by decide⟩

/-! Claim C10. -/

/-- C10: a fault while reading the page content, or — when the page text
matched nothing — a fault while inspecting the dialog, makes
`check_for_blocks` answer false (not blocked), so the chain-runner loop,
which breaks only on a true answer, continues to the next step. -/
theorem check_for_blocks_fault_not_blocked (e : PageErr)
    (dialog : Except PageErr (Option Str)) (content : Str) :
    check_for_blocks (.error e) dialog = false
    ∧ (block_indicators.any
        (fun i => strContains (lowerStr content) (lowerStr i)) = false →
        check_for_blocks (.ok content) (.error e) = false) := by
  refine ⟨rfl, fun h => ?_⟩
  simp [check_for_blocks, h]

/-- Witness for C10: a timed-out content read, and a clean page followed by a
faulting dialog read. -/
theorem check_for_blocks_fault_not_blocked_witness :
    check_for_blocks (.error ⟨"timeout".data⟩) (.ok none) = false
    ∧ check_for_blocks (.ok "hello".data) (.error ⟨"gone".data⟩) = false :=
  ⟨(check_for_blocks_fault_not_blocked ⟨"timeout".data⟩ (.ok none) "hello".data).1,
   (check_for_blocks_fault_not_blocked ⟨"gone".data⟩ (.ok none) "hello".data).2
     (by decide)⟩

/-! Claim C5. -/

/-- C5: a chain that is empty or has no enabled steps makes the runner abort
before navigation: no executor operation is invoked, the shared counters are
untouched, nothing is recorded, and the step loop never runs. -/
theorem execute_action_chain_zero_enabled (target : Str) (chain : List ActionStep)
    (texts : Texts) (env : ChainEnv) (s0 : Stats)
    (h : (chain.filter (·.enabled)).isEmpty = true) :
    (execute_action_chain target chain texts env s0).stats = s0
    ∧ (execute_action_chain target chain texts env s0).invoked = []
    ∧ (execute_action_chain target chain texts env s0).navAttempted = false
    ∧ (execute_action_chain target chain texts env s0).recorded = none
    ∧ (execute_action_chain target chain texts env s0).processedSteps = 0 := by
  by_cases hc : chain.isEmpty
  · simp [execute_action_chain, hc]
  · simp [execute_action_chain, hc, h]

/-- Witness for C5: a chain holding one disabled step. -/
theorem execute_action_chain_zero_enabled_witness :
    (execute_action_chain "user".data [⟨"follow".data, none, false, none⟩]
        exampleTexts exampleEnvBenign stats0).stats = stats0
    ∧ (execute_action_chain "user".data [⟨"follow".data, none, false, none⟩]
        exampleTexts exampleEnvBenign stats0).invoked = [] :=
  ⟨(execute_action_chain_zero_enabled "user".data _ exampleTexts exampleEnvBenign
      stats0 (by decide)).1,
   (execute_action_chain_zero_enabled "user".data _ exampleTexts exampleEnvBenign
      stats0 (by decide)).2.1⟩

/-! Claim C4. -/

theorem has_lease_release (m : SessionMap) (a : Str) :
    has_lease (release_session m a) a = false := by
  induction m with
  | nil => rfl
  | cons p t ih =>
    by_cases hp : p.1 = a
    · have hdrop : release_session (p :: t) a = release_session t a := by
        simp [release_session, List.filter_cons, hp]
      rw [hdrop]; exact ih
    · have hcons : release_session (p :: t) a = p :: release_session t a := by
        simp [release_session, List.filter_cons, hp]
      have hany : has_lease (p :: release_session t a) a
          = (decide (p.1 = a) || has_lease (release_session t a) a) := by
        simp [has_lease, List.any_cons]
      rw [hcons, hany, ih]
      simp [hp]

theorem release_session_no_lease (m : SessionMap) (a : Str)
    (h : has_lease m a = false) : release_session m a = m := by
  apply List.filter_eq_self.mpr
  intro p hp
  have := List.any_eq_false.mp h p hp
  simpa using this

theorem lease_count_eq_zero (m : SessionMap) (a : Str)
    (h : has_lease m a = false) : lease_count m a = 0 := by
  apply List.countP_eq_zero.mpr
  intro p hp
  exact List.any_eq_false.mp h p hp

theorem lease_count_acquire (m : SessionMap) (a b : Str) (i : SessionInfo)
    (h : lease_count m b ≤ 1) :
    lease_count (acquire_session m a i).2 b ≤ 1 := by
  unfold acquire_session
  by_cases hl : has_lease m a
  · simpa [hl] using h
  · have hl' : has_lease m a = false := by simpa using hl
    simp only [hl', Bool.false_eq_true, if_false]
    by_cases hab : a = b
    · subst hab
      have h0 : lease_count m a = 0 := lease_count_eq_zero m a hl'
      unfold lease_count at h0 ⊢
      rw [List.countP_cons, h0]
      simp
    · unfold lease_count at h ⊢
      rw [List.countP_cons]
      simpa [hab] using h

theorem lease_count_release (m : SessionMap) (a b : Str)
    (h : lease_count m b ≤ 1) :
    lease_count (release_session m a) b ≤ 1 := by
  refine le_trans ?_ h
  unfold lease_count release_session
  have hs : List.Sublist (m.filter (fun p => !decide (p.1 = a))) m :=
    List.filter_sublist m
  exact hs.countP_le _

theorem applySessionOps_lease_count (ops : List SessionOp) :
    ∀ (m : SessionMap), (∀ b, lease_count m b ≤ 1) →
      ∀ b, lease_count (applySessionOps ops m) b ≤ 1 := by
  induction ops with
  | nil => intro m h b; exact h b
  | cons op rest ih =>
    intro m h b
    cases op with
    | acquire a i =>
      exact ih _ (fun c => lease_count_acquire m a c i (h c)) b
    | release a =>
      exact ih _ (fun c => lease_count_release m a c (h c)) b

/-- C4: the Session Gate contract.  `acquire_session` succeeds and records a
lease exactly when no lease exists, and otherwise refuses leaving the map
unchanged; `release_session` removes the lease unconditionally and is a no-op
on a non-leased account; and every serialized sequence of gate operations
keeps each account at zero or one outstanding lease. -/
theorem session_gate_contract :
    (∀ (m : SessionMap) (a : Str) (i : SessionInfo),
        (has_lease m a = false → acquire_session m a i = (true, (a, i) :: m))
        ∧ (has_lease m a = true → acquire_session m a i = (false, m)))
    ∧ (∀ (m : SessionMap) (a : Str), has_lease (release_session m a) a = false)
    ∧ (∀ (m : SessionMap) (a : Str), has_lease m a = false →
        release_session m a = m)
    ∧ (∀ (ops : List SessionOp) (a : Str),
        lease_count (applySessionOps ops []) a ≤ 1) := by
  refine ⟨fun m a i => ⟨fun h => ?_, fun h => ?_⟩,
    has_lease_release, release_session_no_lease, fun ops a => ?_⟩
  · simp [acquire_session, h]
  · simp [acquire_session, h]
  · exact applySessionOps_lease_count ops [] (fun b => by simp [lease_count]) a

/-- Witness for C4 on a two-account scenario: a fresh acquisition succeeds, a
second acquisition of the same account is refused without side effects,
release removes the lease, releasing a non-leased account is a no-op, and a
concrete operation sequence leaves at most one lease per account. -/
theorem session_gate_contract_witness :
    acquire_session [] "alice".data ⟨0, 1⟩ = (true, [("alice".data, ⟨0, 1⟩)])
    ∧ acquire_session [("alice".data, ⟨0, 1⟩)] "alice".data ⟨5, 2⟩
        = (false, [("alice".data, ⟨0, 1⟩)])
    ∧ has_lease (release_session [("alice".data, ⟨0, 1⟩)] "alice".data)
        "alice".data = false
    ∧ release_session [("alice".data, ⟨0, 1⟩)] "bob".data
        = [("alice".data, ⟨0, 1⟩)]
    ∧ lease_count (applySessionOps
        [.acquire "alice".data ⟨0, 1⟩, .acquire "alice".data ⟨1, 2⟩,
         .acquire "bob".data ⟨2, 3⟩, .release "alice".data] [])
        "alice".data ≤ 1 :=
  ⟨(session_gate_contract.1 [] "alice".data ⟨0, 1⟩).1 (by decide),
   (session_gate_contract.1 [("alice".data, ⟨0, 1⟩)] "alice".data ⟨5, 2⟩).2
     (by decide),
   session_gate_contract.2.1 [("alice".data, ⟨0, 1⟩)] "alice".data,
   session_gate_contract.2.2.1 [("alice".data, ⟨0, 1⟩)] "bob".data (by decide),
   session_gate_contract.2.2.2
     [.acquire "alice".data ⟨0, 1⟩, .acquire "alice".data ⟨1, 2⟩,
      .acquire "bob".data ⟨2, 3⟩, .release "alice".data] "alice".data⟩

/-! Claim C9. -/

theorem distributeGo_length (accounts : List α) (cs r : Nat) :
    ∀ k i start, (distributeGo accounts cs r k i start).length = k := by
  intro k
  induction k with
  | zero => intro i start; rfl
  | succ k ih => intro i start; simp [distributeGo, ih]

theorem listSlice_of_ge (l : List α) (s e : Nat) (h : l.length ≤ s) :
    listSlice l s e = [] := by
  unfold listSlice
  apply List.drop_eq_nil_of_le
  calc (l.take e).length = min e l.length := by simp
  _ ≤ l.length := min_le_right _ _
  _ ≤ s := h

theorem ifSlice_eq_listSlice (l : List α) (s e : Nat) :
    (if s < l.length then listSlice l s e else []) = listSlice l s e := by
  split
  · rfl
  · exact (listSlice_of_ge l s e (by omega)).symm

theorem listSlice_append_drop (l : List α) (s e : Nat) (h : s ≤ e) :
    listSlice l s e ++ l.drop e = l.drop s := by
  unfold listSlice
  rw [List.drop_take e s l]
  have hd := List.drop_take_append_drop l s (e - s)
  rwa [Nat.add_sub_cancel' h] at hd

theorem listSlice_length (l : List α) (s e : Nat) (_hse : s ≤ e)
    (he : e ≤ l.length) : (listSlice l s e).length = e - s := by
  unfold listSlice
  rw [List.length_drop, List.length_take, Nat.min_eq_left he]

theorem getD_replicate_nil (n i : Nat) :
    (List.replicate n ([] : List α)).getD i [] = [] := by
  induction n generalizing i with
  | zero => cases i <;> rfl
  | succ n ih =>
    cases i with
    | zero => rfl
    | succ i => exact ih i

theorem distributeGo_spec (accounts : List α) (cs r n : Nat) (hr : r ≤ n)
    (hlen : accounts.length = cs * n + r) :
    ∀ k i start, i + k = n → start = cs * i + min i r →
      (distributeGo accounts cs r k i start).flatten = accounts.drop start
      ∧ (∀ j, j < k → ((distributeGo accounts cs r k i start).getD j []).length
            = cs + (if i + j < r then 1 else 0)) := by
  intro k
  induction k with
  | zero =>
    intro i start hik hstart
    have hi : i = n := by omega
    subst hi
    have hs : start = accounts.length := by
      rw [hstart, Nat.min_eq_right hr, hlen]
    refine ⟨?_, fun j hj => absurd hj (by omega)⟩
    simp [distributeGo, hs, List.drop_length]
  | succ k ih =>
    intro i start hik hstart
    have hminsucc : min (i + 1) r = min i r + (if i < r then 1 else 0) := by
      by_cases h : i < r
      · have h1 : min i r = i := Nat.min_eq_left (Nat.le_of_lt h)
        have h2 : min (i + 1) r = i + 1 := Nat.min_eq_left h
        simp [h1, h2, h]
      · have h1 : min i r = r := Nat.min_eq_right (by omega)
        have h2 : min (i + 1) r = r := Nat.min_eq_right (by omega)
        simp [h1, h2, h]
    have hstop : start + cs + (if i < r then 1 else 0)
        = cs * (i + 1) + min (i + 1) r := by
      rw [hminsucc, hstart, Nat.mul_succ]
      ring
    have hstople : start + cs + (if i < r then 1 else 0) ≤ accounts.length := by
      rw [hstop, hlen]
      have h3 : cs * (i + 1) ≤ cs * n := Nat.mul_le_mul_left cs (by omega)
      exact Nat.add_le_add h3 (Nat.min_le_right _ _)
    have hsse : start ≤ start + cs + (if i < r then 1 else 0) := by omega
    have hrec := ih (i + 1) (start + cs + (if i < r then 1 else 0))
      (by omega) hstop
    constructor
    · simp only [distributeGo, List.flatten_cons]
      rw [ifSlice_eq_listSlice, hrec.1]
      exact listSlice_append_drop accounts _ _ hsse
    · intro j hj
      cases j with
      | zero =>
        simp only [distributeGo, List.getD_cons_zero]
        rw [ifSlice_eq_listSlice, listSlice_length accounts _ _ hsse hstople]
        by_cases h : i < r <;> simp [h]
        all_goals omega
      | succ j =>
        simp only [distributeGo, List.getD_cons_succ]
        have hj' := hrec.2 j (by omega)
        have harith : i + 1 + j = i + (j + 1) := by omega
        rw [hj', harith]

/-- C9: for every account list and worker count at least 1,
`distribute_accounts` returns exactly that many chunks, their concatenation
is the original list, the chunk at index `i` has the base size plus one extra
element exactly when `i` is below the remainder (remainder to the earliest
chunks), and consequently any two chunk sizes differ by at most 1. -/
theorem distribute_accounts_partition (accounts : List α) (n : Nat)
    (h : 1 ≤ n) :
    (distribute_accounts accounts n).length = n
    ∧ (distribute_accounts accounts n).flatten = accounts
    ∧ (∀ i, i < n → ((distribute_accounts accounts n).getD i []).length
          = accounts.length / n + (if i < accounts.length % n then 1 else 0))
    ∧ (∀ i j, i < n → j < n →
        ((distribute_accounts accounts n).getD i []).length
          ≤ ((distribute_accounts accounts n).getD j []).length + 1) := by
  by_cases hc : accounts.isEmpty
  · have hnil : accounts = [] := by simpa [List.isEmpty_iff] using hc
    subst hnil
    refine ⟨by simp [distribute_accounts], by simp [distribute_accounts], ?_, ?_⟩
    · intro i hi
      simp [distribute_accounts, getD_replicate_nil]
    · intro i j hi hj
      simp [distribute_accounts, getD_replicate_nil]
  · have hc' : accounts.isEmpty = false := by simpa using hc
    have hn : 0 < n := h
    have hr : accounts.length % n ≤ n := Nat.le_of_lt (Nat.mod_lt _ hn)
    have hlen : accounts.length
        = accounts.length / n * n + accounts.length % n := by
      rw [Nat.mul_comm]
      exact (Nat.div_add_mod accounts.length n).symm
    have hspec := distributeGo_spec accounts (accounts.length / n)
      (accounts.length % n) n hr hlen n 0 0 (by omega) (by simp)
    refine ⟨?_, ?_, ?_, ?_⟩
    · simp [distribute_accounts, hc', distributeGo_length]
    · have := hspec.1
      simp only [List.drop_zero] at this
      simpa [distribute_accounts, hc'] using this
    · intro i hi
      have := hspec.2 i hi
      simp only [Nat.zero_add] at this
      simpa [distribute_accounts, hc'] using this
    · intro i j hi hj
      have h1 := hspec.2 i hi
      have h2 := hspec.2 j hj
      simp only [Nat.zero_add] at h1 h2
      simp only [distribute_accounts, hc', Bool.false_eq_true, if_false]
      rw [h1, h2]
      by_cases hir : i < accounts.length % n <;>
          by_cases hjr : j < accounts.length % n <;>
          simp [hir, hjr]
      all_goals omega

/-- Witness for C9 on five accounts over two workers: the chunks concatenate
back to the list and the first chunk takes the remainder element. -/
theorem distribute_accounts_partition_witness :
    (distribute_accounts [0, 1, 2, 3, 4] 2).flatten = [0, 1, 2, 3, 4]
    ∧ ((distribute_accounts [0, 1, 2, 3, 4] 2).getD 0 []).length
        = [0, 1, 2, 3, 4].length / 2
          + (if 0 < [0, 1, 2, 3, 4].length % 2 then 1 else 0) :=
  ⟨(distribute_accounts_partition [0, 1, 2, 3, 4] 2 (by decide)).2.1,
   (distribute_accounts_partition [0, 1, 2, 3, 4] 2 (by decide)).2.2.1 0
     (by decide)⟩

/-! Claim C6. -/

/-- Number of frames the `view_stories` frame loop views when `budget` frames
remain and the current frame index is `i`: every entered iteration views one
frame, and a further iteration follows only when the budget allows it and the
next-frame control was found and clicked. -/
def viewCount (events : Nat → FrameEvent) : Nat → Nat → Nat
  | 0, _ => 0
  | budget + 1, i =>
    1 + (if budget = 0 then 0
         else
           match events i with
           | .next => viewCount events budget (i + 1)
           | .noNext => 0
           | .navFault => 0)

theorem viewLoop_eq (events : Nat → FrameEvent) :
    ∀ (budget i viewed : Nat) (s : Stats),
      viewLoop events budget i viewed s
        = (viewed + viewCount events budget i,
           { s with successful_actions
                      := s.successful_actions + viewCount events budget i,
                    total_actions := s.total_actions + viewCount events budget i }) := by
  intro budget
  induction budget with
  | zero => intro i viewed s; simp [viewLoop, viewCount]
  | succ budget ih =>
    intro i viewed s
    by_cases hb : budget = 0
    · subst hb
      simp [viewLoop, viewCount]
    · cases hev : events i with
      | next =>
        simp only [viewLoop, hb, if_false, hev, viewCount, ih]
        simp [Nat.add_assoc]
      | noNext =>
        simp [viewLoop, hb, hev, viewCount]
      | navFault =>
        simp [viewLoop, hb, hev, viewCount]

theorem viewCount_le (events : Nat → FrameEvent) :
    ∀ budget i, viewCount events budget i ≤ budget := by
  intro budget
  induction budget with
  | zero => intro i; simp [viewCount]
  | succ budget ih =>
    intro i
    unfold viewCount
    by_cases hb : budget = 0
    · simp [hb]
    · have h1 := ih (i + 1)
      cases events i <;> simp [hb]
      all_goals omega

theorem viewCount_pos (events : Nat → FrameEvent) (budget i : Nat)
    (h : 0 < budget) : 0 < viewCount events budget i := by
  cases budget with
  | zero => omega
  | succ b => unfold viewCount; omega

theorem viewCount_all_next (events : Nat → FrameEvent)
    (hev : ∀ j, events j = .next) :
    ∀ budget i, viewCount events budget i = budget := by
  intro budget
  induction budget with
  | zero => intro i; rfl
  | succ budget ih =>
    intro i
    unfold viewCount
    by_cases hb : budget = 0
    · simp [hb]
    · rw [hev i]
      simp [hb, ih (i + 1)]
      omega

theorem viewCount_stop (events : Nat → FrameEvent) :
    ∀ budget i m, m + 1 < budget → events (i + m) ≠ .next →
      viewCount events budget i ≤ m + 1 := by
  intro budget
  induction budget with
  | zero => intro i m hm _; omega
  | succ budget ih =>
    intro i m hm hne
    have hb : budget ≠ 0 := by omega
    unfold viewCount
    cases m with
    | zero =>
      simp only [Nat.add_zero] at hne
      cases hev : events i with
      | next => exact absurd hev hne
      | noNext => simp [hb, hev]
      | navFault => simp [hb, hev]
    | succ m =>
      cases hev : events i with
      | next =>
        have hrec := ih (i + 1) m (by omega) (by
          have harith : i + 1 + m = i + (m + 1) := by omega
          rw [harith]; exact hne)
        simp [hb, hev]
        omega
      | noNext => simp [hb, hev]
      | navFault => simp [hb, hev]

/-- C6 (amended): for runs that open the story viewer and reach the frame
loop, `view_stories` succeeds iff at least one frame was viewed, views at most
`count` frames, views exactly `count` when a next frame always exists, stops
early at the first frame whose next control is missing or faults, and closes
the viewer; when no story ring exists (or its query faults) the viewer is
never opened and nothing is closed; but on the path where the story-container
wait faults after the ring click opened the viewer, the function returns
failure without closing the viewer. -/
theorem view_stories_amended (count : Int) (ev : Nat → FrameEvent) (s : Stats) :
    ((view_stories count (.frames ev) s).opened = true
      ∧ (view_stories count (.frames ev) s).closed = true
      ∧ (view_stories count (.frames ev) s).success
          = decide (0 < (view_stories count (.frames ev) s).viewed)
      ∧ (view_stories count (.frames ev) s).viewed ≤ count.toNat
      ∧ ((∀ j, ev j = .next) →
          (view_stories count (.frames ev) s).viewed = count.toNat)
      ∧ (∀ m, m + 1 < count.toNat → ev m ≠ .next →
          (view_stories count (.frames ev) s).viewed ≤ m + 1))
    ∧ view_stories count .noRing s = ⟨false, 0, false, false, s⟩
    ∧ view_stories count .ringFault s = ⟨false, 0, false, false, s⟩
    ∧ (view_stories count .containerFault s).opened = true
    ∧ (view_stories count .containerFault s).closed = false := by
  refine ⟨⟨?_, ?_, ?_, ?_, ?_, ?_⟩, rfl, rfl, rfl, rfl⟩
  · rfl
  · rfl
  · simp [view_stories, viewLoop_eq]
  · simp only [view_stories, viewLoop_eq]
    simpa using viewCount_le ev count.toNat 0
  · intro hev
    simp only [view_stories, viewLoop_eq]
    simpa using viewCount_all_next ev hev count.toNat 0
  · intro m hm hne
    simp only [view_stories, viewLoop_eq]
    simpa using viewCount_stop ev count.toNat 0 m hm (by simpa using hne)

/-- Witness for C6 (amended) on a three-frame request where the second frame
has no next control: exactly two frames are viewed, the call succeeds and the
viewer is closed. -/
theorem view_stories_amended_witness :
    (view_stories 3 (.frames (fun j => if j = 0 then .next else .noNext))
        stats0).viewed ≤ 1 + 1
    ∧ (view_stories 3 (.frames (fun _ => FrameEvent.next)) stats0).viewed
        = (3 : Int).toNat
    ∧ (view_stories 3 (.containerFault) stats0).closed = false :=
  ⟨(view_stories_amended 3 (fun j => if j = 0 then .next else .noNext)
      stats0).1.2.2.2.2.2 1 (by decide) (by decide),
   (view_stories_amended 3 (fun _ => FrameEvent.next) stats0).1.2.2.2.2.1
     (fun _ => rfl),
   (view_stories_amended 3 (fun _ => FrameEvent.next) stats0).2.2.2.2⟩

/-- Counterexample to C6 as stated: when the story-container wait raises
right after the ring click opened the viewer, `view_stories` exits without
invoking `close_stories`, so the viewer is not closed on this error path. -/
theorem view_stories_not_closed_counterexample :
    (view_stories 3 .containerFault stats0).opened = true
    ∧ (view_stories 3 .containerFault stats0).closed = false :=
  ⟨rfl, rfl⟩

/-! Claim C2. -/

theorem filterMap_unknown_eq_nil (chain : List ActionStep) :
    ∀ nstart, (((List.enumFrom nstart chain).filterMap (fun p =>
        if p.2.type ∈ valid_action_types then none
        else some (ValMsg.unknownType (p.1 + 1) p.2.type))) = [])
      ↔ chain.all (fun a => decide (a.type ∈ valid_action_types)) = true := by
  induction chain with
  | nil => intro nstart; simp
  | cons a t ih =>
    intro nstart
    by_cases ha : a.type ∈ valid_action_types
    · simpa [List.enumFrom, ha] using ih (nstart + 1)
    · simp [List.enumFrom, ha]

theorem validate_action_chain_valid (chain : List ActionStep) :
    (validate_action_chain chain).valid
      = (!chain.isEmpty && !(chain.filter (·.enabled)).isEmpty
         && chain.all (fun a => decide (a.type ∈ valid_action_types))) := by
  by_cases hc : chain.isEmpty
  · simp [validate_action_chain, hc]
  · have hc' : chain.isEmpty = false := by simpa using hc
    by_cases he : (chain.filter (·.enabled)).isEmpty
    · simp [validate_action_chain, hc', he]
    · have he' : (chain.filter (·.enabled)).isEmpty = false := by simpa using he
      simp only [validate_action_chain, hc', Bool.false_eq_true, if_false, he',
        List.nil_append, Bool.not_false, Bool.true_and]
      rw [Bool.eq_iff_iff, List.isEmpty_iff]
      simpa [List.enum] using filterMap_unknown_eq_nil chain 0

/-- C2 (amended): the config chain validator accepts any chain that is
non-empty, has an enabled step, and uses only known action types — it never
checks a `like_stories` step against preceding `view_stories` steps; at run
time `execute_single_action` short-circuits a `like_stories` step with the
"no active stories" business failure exactly when the profile snapshot has no
active stories, and when the profile does have stories it invokes the
story-like executor regardless of any prior views (the count rule is enforced
only in the GUI authoring dialog, which is outside the runtime path). -/
theorem like_stories_guard_amended :
    (∀ chain : List ActionStep, (validate_action_chain chain).valid
        = (!chain.isEmpty && !(chain.filter (·.enabled)).isEmpty
           && chain.all (fun a => decide (a.type ∈ valid_action_types))))
    ∧ (∀ (a : ActionStep) (texts : Texts) (pinfo : ProfileInfo) (se : StepEnv)
        (s : Stats), a.type = "like_stories".data → pinfo.has_stories = false →
        execute_single_action a texts pinfo se s
          = (⟨false, some "Немає активних сторіс".data⟩, s, []))
    ∧ (∀ (a : ActionStep) (texts : Texts) (pinfo : ProfileInfo) (se : StepEnv)
        (s : Stats), a.type = "like_stories".data → pinfo.has_stories = true →
        (execute_single_action a texts pinfo se s).2.2 = ["like_stories".data]) := by
  refine ⟨validate_action_chain_valid, ?_, ?_⟩
  · intro a texts pinfo se s ht hs
    unfold execute_single_action
    rw [ht]
    rw [if_neg (by decide), if_neg (by decide), if_neg (by decide), if_pos rfl]
    simp [hs]
  · intro a texts pinfo se s ht hs
    unfold execute_single_action
    rw [ht]
    rw [if_neg (by decide), if_neg (by decide), if_neg (by decide), if_pos rfl]
    simp [hs]

/-- Witness for C2 (amended): the single-step like-stories chain passes the
validator, a story-less profile short-circuits the step, and a profile with
stories reaches the executor. -/
theorem like_stories_guard_amended_witness :
    (validate_action_chain likeStoriesOnlyChain).valid
      = (!likeStoriesOnlyChain.isEmpty
         && !(likeStoriesOnlyChain.filter (·.enabled)).isEmpty
         && likeStoriesOnlyChain.all
              (fun a => decide (a.type ∈ valid_action_types)))
    ∧ execute_single_action likeStoriesStep exampleTexts
        { examplePinfo with has_stories := false } exampleStepEnvBenign stats0
        = (⟨false, some "Немає активних сторіс".data⟩, stats0, [])
    ∧ (execute_single_action likeStoriesStep exampleTexts examplePinfo
        exampleStepEnvBenign stats0).2.2 = ["like_stories".data] :=
  ⟨like_stories_guard_amended.1 likeStoriesOnlyChain,
   like_stories_guard_amended.2.1 likeStoriesStep exampleTexts
     { examplePinfo with has_stories := false } exampleStepEnvBenign stats0
     rfl rfl,
   like_stories_guard_amended.2.2 likeStoriesStep exampleTexts examplePinfo
     exampleStepEnvBenign stats0 rfl rfl⟩

/-- Counterexample to C2 as stated: the chain consisting of one enabled
`like_stories` step and no `view_stories` step at all is accepted as valid by
the authoring-time chain validator, and at run time (profile with active
stories) the runner invokes the story-like executor and the step succeeds —
neither rejection nor a "no active stories" short-circuit occurs, so a
story-like is performed with zero story-views. -/
theorem like_stories_unguarded_counterexample :
    (validate_action_chain likeStoriesOnlyChain).valid = true
    ∧ likeStoriesOnlyChain.all
        (fun a => decide (a.type ≠ "view_stories".data)) = true
    ∧ (execute_action_chain "user".data likeStoriesOnlyChain exampleTexts
        exampleEnvBenign stats0).invoked = ["like_stories".data]
    ∧ (execute_action_chain "user".data likeStoriesOnlyChain exampleTexts
        exampleEnvBenign stats0).successful = 1 := by
  refine ⟨by decide, by decide, by decide, by decide⟩

/-! Claim C3. -/

/-- C3 (amended): the chain runner records a per-target statistics entry
exactly when the run reaches the step loop — that is, when the chain is
non-empty, has an enabled step, navigation succeeded within its 3-attempt
budget, and the profile-status check did not classify the target as blocked.
On every early exit (empty chain, no enabled steps, navigation exhausted, or
blocked/private/not-found profile) no entry is recorded. -/
theorem execute_action_chain_recorded_iff (target : Str)
    (chain : List ActionStep) (texts : Texts) (env : ChainEnv) (s0 : Stats) :
    (execute_action_chain target chain texts env s0).recorded.isSome
      = (!chain.isEmpty && !(chain.filter (·.enabled)).isEmpty
         && navigate_to_profile target env.nav
         && !(check_profile_status env.statusContent).blocked) := by
  by_cases hc : chain.isEmpty
  · simp [execute_action_chain, hc]
  · have hc' : chain.isEmpty = false := by simpa using hc
    by_cases he : (chain.filter (·.enabled)).isEmpty
    · simp [execute_action_chain, hc', he]
    · have he' : (chain.filter (·.enabled)).isEmpty = false := by simpa using he
      by_cases hn : navigate_to_profile target env.nav
      · by_cases hb : (check_profile_status env.statusContent).blocked
        · simp [execute_action_chain, hc', he', hn, hb]
        · simp [execute_action_chain, hc', he', hn, hb]
      · have hn' : navigate_to_profile target env.nav = false := by simpa using hn
        simp [execute_action_chain, hc', he', hn']

/-- Counterexample to C3 as stated: with a non-empty enabled chain but
navigation raising on all 3 attempts, the runner returns without calling
`save_target_statistics` — no per-target entry (successful/failed counts,
success rate, step names) is recorded on the navigation-exhausted exit path,
contradicting "recorded on every exit path". -/
theorem target_statistics_skipped_counterexample :
    (execute_action_chain "user".data followOnlyChain exampleTexts
        exampleEnvNavFail stats0).recorded = none
    ∧ followOnlyChain.isEmpty = false
    ∧ (followOnlyChain.filter (·.enabled)).isEmpty = false
    ∧ navigate_to_profile "user".data exampleEnvNavFail.nav = false := by
  refine ⟨by decide, by decide, by decide, by decide⟩

/-! Claim C1. -/

theorem follow_user_result_const (e : FollowEnv) (s : Stats) :
    (follow_user e s).1 = (follow_user e stats0).1 := by
  cases e <;> rfl

theorem follow_user_total (e : FollowEnv) (s : Stats) :
    (follow_user e s).2.total_actions
      = s.total_actions + (follow_user e stats0).2.total_actions := by
  cases e <;> simp [follow_user, stats0]

/-- Number of posts the `like_recent_posts` loop likes among the processed
events. -/
def likedCount (events : List PostEvent) : Nat :=
  events.countP (fun e => decide (e = PostEvent.liked))

/-- Internal shared-total increments of the `like_recent_posts` loop: one per
liked post and one per per-post fault. -/
def postTotalDelta (events : List PostEvent) : Nat :=
  events.countP
    (fun e => decide (e = PostEvent.liked) || decide (e = PostEvent.postFault))

theorem foldl_likePostStep_eq :
    ∀ (events : List PostEvent) (v : Nat) (s : Stats),
      (events.foldl likePostStep (v, s)).1 = v + likedCount events
      ∧ (events.foldl likePostStep (v, s)).2.total_actions
          = s.total_actions + postTotalDelta events := by
  intro events
  induction events with
  | nil => intro v s; simp [likedCount, postTotalDelta]
  | cons e t ih =>
    intro v s
    cases e with
    | alreadyLiked =>
      have h := ih v s
      simp only [List.foldl_cons, likePostStep]
      simpa [likedCount, postTotalDelta, List.countP_cons] using h
    | noLikeButton =>
      have h := ih v s
      simp only [List.foldl_cons, likePostStep]
      simpa [likedCount, postTotalDelta, List.countP_cons] using h
    | liked =>
      have h := ih (v + 1)
        { s with successful_actions := s.successful_actions + 1,
                 total_actions := s.total_actions + 1 }
      simp only [List.foldl_cons, likePostStep]
      constructor
      · rw [h.1]
        simp [likedCount, List.countP_cons]
        omega
      · rw [h.2]
        simp [postTotalDelta, List.countP_cons]
        omega
    | postFault =>
      have h := ih v
        { s with failed_actions := s.failed_actions + 1,
                 total_actions := s.total_actions + 1 }
      simp only [List.foldl_cons, likePostStep]
      constructor
      · rw [h.1]
        simp [likedCount, List.countP_cons]
      · rw [h.2]
        simp [postTotalDelta, List.countP_cons]
        omega

theorem like_recent_posts_result_const (c : Int) (e : LikePostsEnv) (s : Stats) :
    (like_recent_posts c e s).1 = (like_recent_posts c e stats0).1 := by
  cases e with
  | fault => rfl
  | posts events =>
    by_cases hev : events.isEmpty
    · simp [like_recent_posts, hev]
    · have hev' : events.isEmpty = false := by simpa using hev
      simp only [like_recent_posts, hev', Bool.false_eq_true, if_false]
      rw [(foldl_likePostStep_eq _ 0 s).1, (foldl_likePostStep_eq _ 0 stats0).1]

theorem like_recent_posts_total (c : Int) (e : LikePostsEnv) (s : Stats) :
    (like_recent_posts c e s).2.total_actions
      = s.total_actions + (like_recent_posts c e stats0).2.total_actions := by
  cases e with
  | fault => simp [like_recent_posts, stats0]
  | posts events =>
    by_cases hev : events.isEmpty
    · simp [like_recent_posts, hev, stats0]
    · have hev' : events.isEmpty = false := by simpa using hev
      simp only [like_recent_posts, hev', Bool.false_eq_true, if_false]
      rw [(foldl_likePostStep_eq _ 0 s).2, (foldl_likePostStep_eq _ 0 stats0).2]
      simp [stats0]

theorem view_stories_result_const (c : Int) (e : ViewStoriesEnv) (s : Stats) :
    (view_stories c e s).success = (view_stories c e stats0).success := by
  cases e <;> simp [view_stories, viewLoop_eq]

theorem view_stories_total (c : Int) (e : ViewStoriesEnv) (s : Stats) :
    (view_stories c e s).stats.total_actions
      = s.total_actions + (view_stories c e stats0).stats.total_actions := by
  cases e <;> simp [view_stories, viewLoop_eq, stats0]

theorem like_stories_result_const (e : LikeStoriesEnv) (s : Stats) :
    (like_stories e s).1 = (like_stories e stats0).1 := by
  cases e <;> rfl

theorem like_stories_total (e : LikeStoriesEnv) (s : Stats) :
    (like_stories e s).2.total_actions
      = s.total_actions + (like_stories e stats0).2.total_actions := by
  cases e <;> simp [like_stories, stats0]

theorem reply_to_stories_result_const (texts : List Str) (e : ReplyEnv)
    (s : Stats) : (reply_to_stories texts e s).1
      = (reply_to_stories texts e stats0).1 := by
  by_cases ht : texts.isEmpty
  · simp [reply_to_stories, ht]
  · have ht' : texts.isEmpty = false := by simpa using ht
    cases e <;> simp [reply_to_stories, ht']

theorem reply_to_stories_total (texts : List Str) (e : ReplyEnv) (s : Stats) :
    (reply_to_stories texts e s).2.total_actions
      = s.total_actions + (reply_to_stories texts e stats0).2.total_actions := by
  by_cases ht : texts.isEmpty
  · simp [reply_to_stories, ht, stats0]
  · have ht' : texts.isEmpty = false := by simpa using ht
    cases e <;> simp [reply_to_stories, ht', stats0]

theorem send_direct_message_result_const (texts : List Str) (e : DmEnv)
    (s : Stats) : (send_direct_message texts e s).1
      = (send_direct_message texts e stats0).1 := by
  by_cases ht : texts.isEmpty
  · simp [send_direct_message, ht]
  · have ht' : texts.isEmpty = false := by simpa using ht
    cases e <;> simp [send_direct_message, ht']

theorem send_direct_message_total (texts : List Str) (e : DmEnv) (s : Stats) :
    (send_direct_message texts e s).2.total_actions
      = s.total_actions + (send_direct_message texts e stats0).2.total_actions := by
  by_cases ht : texts.isEmpty
  · simp [send_direct_message, ht, stats0]
  · have ht' : texts.isEmpty = false := by simpa using ht
    cases e <;> simp [send_direct_message, ht', stats0]

theorem execute_single_action_result_const (a : ActionStep) (texts : Texts)
    (pinfo : ProfileInfo) (se : StepEnv) (s : Stats) :
    (execute_single_action a texts pinfo se s).1
      = (execute_single_action a texts pinfo se stats0).1 := by
  unfold execute_single_action
  split_ifs <;>
    simp [follow_user_result_const se.followEnv s,
      like_recent_posts_result_const (settingsCount a 2) se.likePostsEnv s,
      view_stories_result_const (settingsCount a 3) se.viewStoriesEnv s,
      like_stories_result_const se.likeStoriesEnv s,
      reply_to_stories_result_const texts.story_replies se.replyEnv s,
      send_direct_message_result_const texts.direct_messages se.dmEnv s]

theorem execute_single_action_total (a : ActionStep) (texts : Texts)
    (pinfo : ProfileInfo) (se : StepEnv) (s : Stats) :
    (execute_single_action a texts pinfo se s).2.1.total_actions
      = s.total_actions
        + (execute_single_action a texts pinfo se stats0).2.1.total_actions := by
  unfold execute_single_action
  split_ifs <;>
    simp [stats0, follow_user_total se.followEnv s,
      like_recent_posts_total (settingsCount a 2) se.likePostsEnv s,
      view_stories_total (settingsCount a 3) se.viewStoriesEnv s,
      like_stories_total se.likeStoriesEnv s,
      reply_to_stories_total texts.story_replies se.replyEnv s,
      send_direct_message_total texts.direct_messages se.dmEnv s]

/-- Executor-internal increments of the shared total-attempted counter
accumulated along the step loop (the counter movements performed inside
`follow_user`, `like_recent_posts`, `view_stories`, `like_stories`,
`reply_to_stories` and `send_direct_message`, over the steps the loop
actually processes). -/
def chainInternalTotal (texts : Texts) (envs : Nat → StepEnv) :
    List ActionStep → Nat → ProfileInfo → Nat
  | [], _, _ => 0
  | a :: rest, i, pinfo =>
    let se := envs i
    if !se.running then 0
    else
      let r := execute_single_action a texts pinfo se stats0
      if check_for_blocks se.blockContent se.blockDialog then
        r.2.1.total_actions
      else
        r.2.1.total_actions
          + chainInternalTotal texts envs rest (i + 1)
              (if r.1.success then update_profile_info pinfo a.type se.canvasAfter
               else pinfo)

theorem stepLoop_total (texts : Texts) (envs : Nat → StepEnv) :
    ∀ (steps : List ActionStep) (i : Nat) (pinfo : ProfileInfo)
      (succ fail proc : Nat) (tr : List Str) (s : Stats),
      (stepLoop texts envs steps i pinfo succ fail proc tr s).stats.total_actions
          + proc
        = s.total_actions
          + (stepLoop texts envs steps i pinfo succ fail proc tr s).processed
          + chainInternalTotal texts envs steps i pinfo := by
  intro steps
  induction steps with
  | nil => intro i pinfo succ fail proc tr s; simp [stepLoop, chainInternalTotal]
  | cons a rest ih =>
    intro i pinfo succ fail proc tr s
    by_cases hrun : (envs i).running
    · have hres := execute_single_action_result_const a texts pinfo (envs i) s
      have htot := execute_single_action_total a texts pinfo (envs i) s
      by_cases hblk : check_for_blocks (envs i).blockContent (envs i).blockDialog
      · simp only [stepLoop, chainInternalTotal, hrun, Bool.not_true,
          Bool.false_eq_true, if_false, hblk, if_true]
        by_cases hsucc : (execute_single_action a texts pinfo (envs i) s).1.success <;>
          simp only [hsucc, if_true, Bool.false_eq_true, if_false] <;>
          omega
      · have hblk' : check_for_blocks (envs i).blockContent (envs i).blockDialog
            = false := by simpa using hblk
        simp only [stepLoop, chainInternalTotal, hrun, Bool.not_true,
          Bool.false_eq_true, if_false, hblk', if_true]
        by_cases hsucc : (execute_single_action a texts pinfo (envs i) s).1.success
        · have hsucc0 : (execute_single_action a texts pinfo (envs i) stats0).1.success
              = true := by rw [← hres]; exact hsucc
          simp only [hsucc, hsucc0, if_true]
          have hrec := ih (i + 1)
            (update_profile_info pinfo a.type (envs i).canvasAfter)
            (succ + 1) fail (proc + 1) (tr ++ (execute_single_action a texts
              pinfo (envs i) s).2.2)
            { (execute_single_action a texts pinfo (envs i) s).2.1 with
                successful_actions := (execute_single_action a texts pinfo
                  (envs i) s).2.1.successful_actions + 1,
                total_actions := (execute_single_action a texts pinfo
                  (envs i) s).2.1.total_actions + 1 }
          simp only at hrec
          omega
        · have hsucc' : (execute_single_action a texts pinfo (envs i) s).1.success
              = false := by simpa using hsucc
          have hsucc0 : (execute_single_action a texts pinfo (envs i) stats0).1.success
              = false := by rw [← hres]; exact hsucc'
          simp only [hsucc', hsucc0, Bool.false_eq_true, if_false]
          have hrec := ih (i + 1) pinfo succ (fail + 1) (proc + 1)
            (tr ++ (execute_single_action a texts pinfo (envs i) s).2.2)
            { (execute_single_action a texts pinfo (envs i) s).2.1 with
                failed_actions := (execute_single_action a texts pinfo
                  (envs i) s).2.1.failed_actions + 1,
                total_actions := (execute_single_action a texts pinfo
                  (envs i) s).2.1.total_actions + 1 }
          simp only at hrec
          omega
    · have hrun' : (envs i).running = false := by simpa using hrun
      simp [stepLoop, chainInternalTotal, hrun']

/-- Executor-internal total-counter increments of one whole chain run (zero
on every early-exit path, since those paths never reach the step loop). -/
def chainRunInternalTotal (target : Str) (chain : List ActionStep)
    (texts : Texts) (env : ChainEnv) : Nat :=
  if chain.isEmpty then 0
  else
    let enabled := chain.filter (·.enabled)
    if enabled.isEmpty then 0
    else if !navigate_to_profile target env.nav then 0
    else if (check_profile_status env.statusContent).blocked then 0
    else chainInternalTotal texts env.stepEnvs enabled 0 env.profileInfo

/-- C1 (amended): after any chain run the shared total-attempted counter
equals its prior value, plus exactly one increment per enabled step the loop
dispatched before any abort, plus the executor-internal increments of those
steps (one per successful follow click or follow-handler fault, one per liked
post and per per-post fault, one per viewed story frame, one per story like,
sent reply or sent/faulted direct message).  The claim's "exactly the number
of dispatched steps" holds only when that executor-internal contribution is
zero. -/
theorem execute_action_chain_total_accounting (target : Str)
    (chain : List ActionStep) (texts : Texts) (env : ChainEnv) (s0 : Stats) :
    (execute_action_chain target chain texts env s0).stats.total_actions
      = s0.total_actions
        + (execute_action_chain target chain texts env s0).processedSteps
        + chainRunInternalTotal target chain texts env := by
  by_cases hc : chain.isEmpty
  · simp [execute_action_chain, chainRunInternalTotal, hc]
  · have hc' : chain.isEmpty = false := by simpa using hc
    by_cases he : (chain.filter (·.enabled)).isEmpty
    · simp [execute_action_chain, chainRunInternalTotal, hc', he]
    · have he' : (chain.filter (·.enabled)).isEmpty = false := by simpa using he
      by_cases hn : navigate_to_profile target env.nav
      · by_cases hb : (check_profile_status env.statusContent).blocked
        · simp [execute_action_chain, chainRunInternalTotal, hc', he', hn, hb]
        · have hb' : (check_profile_status env.statusContent).blocked = false := by
            simpa using hb
          simp only [execute_action_chain, chainRunInternalTotal, hc', he', hn,
            hb', Bool.false_eq_true, if_false, Bool.not_true, if_true]
          have := stepLoop_total texts env.stepEnvs (chain.filter (·.enabled))
            0 env.profileInfo 0 0 0 [] s0
          omega
      · have hn' : navigate_to_profile target env.nav = false := by simpa using hn
        simp [execute_action_chain, chainRunInternalTotal, hc', he', hn']

/-- Counterexample to C1 as stated: a single-step chain `[follow]` run in an
environment where the follow button is found and clicked dispatches exactly
one enabled step, yet the shared total-attempted counter ends at 2 (one
increment in the chain loop plus one inside `follow_user`), not 1. -/
theorem total_actions_inflated_counterexample :
    (execute_action_chain "user".data followOnlyChain exampleTexts
        exampleEnvBenign stats0).stats.total_actions = 2
    ∧ (execute_action_chain "user".data followOnlyChain exampleTexts
        exampleEnvBenign stats0).processedSteps = 1
    ∧ (followOnlyChain.filter (·.enabled)).length = 1 :=
  ⟨by decide, by decide, by decide⟩

end InstMulti
